import Mathlib

/-!
Shallow embedding of the fused depth detection program
(src/融合深度的实时检测/Fusiondepth_detection.py).

The program is a single-threaded loop: a RealsenseCamera wrapper owns the
device pipeline (start with warm-up, get_aligned_frames, stop), and main
loads a model, starts the camera, and then runs a while-True loop that
acquires an aligned frame pair, runs the detector, computes the center of
each bounding box, samples the depth at that center, and annotates the
image for every detection whose sampled distance is positive. The loop body
sits inside try/finally whose finally clause calls cam.stop.

External effects (the pyrealsense2 pipeline, the detector call, key
presses) are modelled as explicit event values consumed by the loop; the
pure data transformations (center computation, distance validity test,
per-cycle control flow, the lifecycle of the device handle) are translated
directly from the source.
-/

namespace FusionDepth

/-- Exception values: the model only distinguishes where an exception came
from, never its message. -/
inductive PyExn where
  | runtimeError : PyExn
  | frameError : PyExn
  | detectorError : PyExn
  deriving DecidableEq

/-- Bounding box corners in color-frame pixel coordinates, integers as
produced by map int box.xyxy at line 125 of the source. -/
structure Box where
  x1 : Int
  y1 : Int
  x2 : Int
  y2 : Int
  deriving DecidableEq

/-- Center-point computation from line 133 of the source:
cx, cy = int((x1 + x2) / 2), int((y1 + y2) / 2).
Python divides the integer sum by 2 with float true division, which is
exact at pixel magnitudes, and int() truncates toward zero, which is
Int.tdiv. -/
def center (b : Box) : Int × Int :=
  (Int.tdiv (b.x1 + b.x2) 2, Int.tdiv (b.y1 + b.y2) 2)

/-- One detection from the detector: box, class id, confidence
(lines 123-130 of the source). -/
structure Detection where
  box : Box
  clsId : Nat
  conf : ℚ
  deriving DecidableEq

/-- A depth frame, abstracted to its get_distance interface: a total map
from pixel coordinates to a distance in meters (line 137 of the source;
the sensor reports 0 or a non-positive value when there is no valid
measurement). Distances are modelled as rationals. -/
def DepthFun : Type := Int → Int → ℚ

/-- The annotated output the loop produces for one detection: the box is
drawn together with its center and the distance text (lines 140-154 of the
source). The source only produces this when the sampled distance is
positive; the distance field is always the sampled value. -/
structure FusedDetection where
  det : Detection
  ctr : Int × Int
  distance : ℚ
  deriving DecidableEq

/-- Per-detection body of the result loop (lines 123-154 of the source):
compute the box center, sample depth_frame.get_distance there, and only
when the distance is strictly positive produce the annotated output;
otherwise the detection produces nothing at all. -/
def fuseBox (depth : DepthFun) (d : Detection) : Option FusedDetection :=
  if 0 < depth (center d.box).1 (center d.box).2 then
    some ⟨d, center d.box, depth (center d.box).1 (center d.box).2⟩
  else none

/-- The whole for-loop over results[0].boxes of one cycle: each detection
contributes its annotation when its center depth is positive. -/
def fuse (depth : DepthFun) (dets : List Detection) : List FusedDetection :=
  dets.filterMap (fuseBox depth)

/-- What the pyrealsense2 pipeline does during one get_aligned_frames
call: either some call inside the try block raises (wait_for_frames
timeout, alignment failure, data conversion), or aligned frames arrive
with the depth and color components each present or absent. -/
inductive FrameEvent where
  | raise : PyExn → FrameEvent
  | frames : Bool → Bool → Nat → DepthFun → FrameEvent

/-- Try-block of RealsenseCamera.get_aligned_frames (lines 68-76 of the
source): wait for frames, align, extract the depth and color frames; if
either is missing return the pair (None, None), otherwise return the color
image together with the depth frame. An exception escapes as an error. -/
def get_aligned_frames_body : FrameEvent → Except PyExn (Option Nat × Option DepthFun)
  | .raise e => Except.error e
  | .frames depthOk colorOk img dep =>
      if !depthOk || !colorOk then Except.ok (none, none)
      else Except.ok (some img, some dep)

/-- RealsenseCamera.get_aligned_frames (lines 66-79 of the source): the
try-block with the except clause that turns any exception into the pair
(None, None). -/
def get_aligned_frames (ev : FrameEvent) : Option Nat × Option DepthFun :=
  match get_aligned_frames_body ev with
  | Except.error _ => (none, none)
  | Except.ok r => r

/-- State of the device handle owned by the camera wrapper: whether the
pipeline is currently started, and how many times pipeline.stop has
released it. -/
structure CamState where
  opened : Bool
  stopCalls : Nat
  deriving DecidableEq

/-- State before the camera is started. -/
def initCam : CamState := ⟨false, 0⟩

/-- What the external world does during RealsenseCamera.start: the
pipeline.start call itself fails, or one of the 30 warm-up
wait_for_frames calls fails after the pipeline was already started, or
everything succeeds. -/
inductive StartEvent where
  | openFail : StartEvent
  | warmupFail : StartEvent
  | ok : StartEvent
  deriving DecidableEq

/-- RealsenseCamera.start (lines 52-64 of the source): try pipeline.start
then 30 warm-up frames, return True on success; any exception is caught
and start returns False. The handle state records that pipeline.start
already succeeded when the failure happens during warm-up. -/
def camStart : StartEvent → CamState → Bool × CamState
  | .openFail, s => (false, s)
  | .warmupFail, s => (false, { s with opened := true })
  | .ok, s => (true, { s with opened := true })

/-- The pipeline.stop call of the pyrealsense2 library: releases the
handle when the pipeline is started, and raises RuntimeError when stop is
called while the pipeline is not started (external library semantics; this
is the callee of the one-line wrapper in the source). -/
def pipelineStop (s : CamState) : Except PyExn CamState :=
  if s.opened then Except.ok ⟨false, s.stopCalls + 1⟩
  else Except.error PyExn.runtimeError

/-- RealsenseCamera.stop (lines 81-84 of the source): prints a message and
calls self.pipeline.stop with no guard and no exception handling. -/
def camStop (s : CamState) : Except PyExn CamState :=
  pipelineStop s

/-- What the detector call does in one cycle: raise, or return the list of
detections above the confidence threshold (line 120 of the source). -/
inductive DetEvent where
  | raise : PyExn → DetEvent
  | dets : List Detection → DetEvent

/-- The key read by waitKey at the end of a cycle (lines 160-170 of the
source): q breaks out of the loop, s saves a snapshot and continues,
anything else continues. -/
inductive Key where
  | q : Key
  | s : Key
  | other : Key
  deriving DecidableEq

/-- The external events of one cycle of the while-True loop. -/
structure CycleInput where
  frameEv : FrameEvent
  detEv : DetEvent
  key : Key

/-- How a run of the while-True loop ends: the supplied event list was
exhausted with the loop still running, the q key broke out of the loop, or
an uncaught exception propagated out of the loop body. -/
inductive RunOutcome where
  | stillRunning : RunOutcome
  | quit : RunOutcome
  | crashed : RunOutcome
  deriving DecidableEq

/-- The while-True loop of main (lines 111-170 of the source), driven by a
finite list of cycle events and accumulating the annotated output emitted
by each completed cycle. Per cycle: get_aligned_frames; if the color image
is None the cycle is skipped with continue; otherwise the detector runs
(an exception here is not caught inside the loop and crashes the run), the
detections are fused against the depth frame and the annotated image is
shown, and then the key decides between break and the next cycle. The
branch where the color image is present but the depth frame is None would
dereference None and crash; it is unreachable, see the acquisition pairing
theorem. -/
def runLoop : List CycleInput → List (List FusedDetection) →
    RunOutcome × List (List FusedDetection)
  | [], acc => (RunOutcome.stillRunning, acc)
  | c :: rest, acc =>
    match get_aligned_frames c.frameEv with
    | (none, _) => runLoop rest acc
    | (some _, none) => (RunOutcome.crashed, acc)
    | (some _, some dep) =>
      match c.detEv with
      | .raise _ => (RunOutcome.crashed, acc)
      | .dets l =>
        match c.key with
        | .q => (RunOutcome.quit, acc ++ [fuse dep l])
        | _ => runLoop rest (acc ++ [fuse dep l])

/-- How a run of main ends. -/
inductive MainOutcome where
  | modelLoadFail : MainOutcome
  | startFail : MainOutcome
  | loopQuit : MainOutcome
  | loopCrashed : MainOutcome
  | loopRunning : MainOutcome
  deriving DecidableEq

/-- The finally clause of main (lines 172-176 of the source) runs
cam.stop; on the paths where the finally clause runs, the pipeline is
started, so the call succeeds and releases the handle. -/
def applyStop (s : CamState) : CamState :=
  match camStop s with
  | Except.ok s2 => s2
  | Except.error _ => s

/-- The main function (lines 86-176 of the source): load the model and
return early on failure; construct the camera and return early, without
any stop call, when cam.start returns False; otherwise run the while-True
loop inside try/finally, the finally clause calling cam.stop both when the
loop breaks normally on q and when an exception propagates out of the
loop. When the event list is exhausted the loop is still running and the
finally clause has not yet run. -/
def main (modelOk : Bool) (startEv : StartEvent) (cycles : List CycleInput) :
    MainOutcome × CamState × List (List FusedDetection) :=
  if !modelOk then (MainOutcome.modelLoadFail, initCam, [])
  else
    match camStart startEv initCam with
    | (false, s) => (MainOutcome.startFail, s, [])
    | (true, s) =>
      match runLoop cycles [] with
      | (RunOutcome.stillRunning, em) => (MainOutcome.loopRunning, s, em)
      | (RunOutcome.quit, em) => (MainOutcome.loopQuit, applyStop s, em)
      | (RunOutcome.crashed, em) => (MainOutcome.loopCrashed, applyStop s, em)

/-- A depth frame reporting no valid return anywhere. -/
def zeroDepth : DepthFun := fun _ _ => 0

/-- A depth frame reporting one meter everywhere. -/
def oneDepth : DepthFun := fun _ _ => 1

/-- A sample detection with the box (100, 100, 200, 200). -/
def exDet : Detection := ⟨⟨100, 100, 200, 200⟩, 0, 9 / 10⟩

/-- A cycle whose detector call raises. -/
def badCycle : CycleInput := ⟨.frames true true 0 oneDepth, .raise .detectorError, .other⟩

/-- A normal cycle with one detection and a valid depth everywhere. -/
def goodCycle : CycleInput := ⟨.frames true true 1 oneDepth, .dets [exDet], .other⟩

/-- A normal cycle during which the q key is pressed. -/
def quitCycle : CycleInput := ⟨.frames true true 0 oneDepth, .dets [], .q⟩

/-- Claim C1, counterexample: with a cycle whose detector call raises
followed by a perfectly normal cycle, the run crashes with nothing
emitted; in particular the result differs from the run that would have
continued with the normal cycle, so the exception is not caught at the
loop boundary and the failing cycle does terminate the run. -/
theorem C1_counterexample :
    runLoop [badCycle, goodCycle] [] = (RunOutcome.crashed, []) ∧
    runLoop [badCycle, goodCycle] [] ≠ runLoop [goodCycle] [] := by
  constructor
  · rfl
  · intro h
    have h1 : (runLoop [badCycle, goodCycle] []).1 = RunOutcome.crashed := rfl
    have h2 : (runLoop [goodCycle] []).1 = RunOutcome.stillRunning := rfl
    rw [h, h2] at h1
    exact RunOutcome.noConfusion h1

/-- Claim C1, amended: an exception raised by the detector during a cycle
is not caught inside the Running loop; it propagates, the run crashes with
no further cycles processed, and main reports the crash after the finally
clause has released the device handle exactly once. -/
theorem C1_detector_raise_crashes_run (img : Nat) (dep : DepthFun) (e : PyExn)
    (key : Key) (rest : List CycleInput) (acc : List (List FusedDetection)) :
    runLoop (⟨.frames true true img dep, .raise e, key⟩ :: rest) acc
      = (RunOutcome.crashed, acc) ∧
    (main true .ok (⟨.frames true true img dep, .raise e, key⟩ :: rest)).1
      = MainOutcome.loopCrashed ∧
    (main true .ok (⟨.frames true true img dep, .raise e, key⟩ :: rest)).2.1
      = ⟨false, 1⟩ := by
  refine ⟨rfl, rfl, rfl⟩

/-- Claim C2, counterexample: with a depth frame whose sample at the
detection center is 0 (hence not positive), the fusion step produces no
output at all for the detection, rather than producing the detection with
an absent distance. -/
theorem C2_counterexample :
    zeroDepth (center exDet.box).1 (center exDet.box).2 ≤ 0 ∧
    fuse zeroDepth [exDet] = [] := by
  constructor
  · simp [zeroDepth]
  · rfl

/-- Claim C2, amended: a center sample that is not positive makes the
detection disappear from the fused output entirely (so a zero distance is
never reported), and a positive center sample yields the annotated
detection carrying exactly that positive sampled distance; every fused
output therefore has a strictly positive distance. -/
theorem C2_invalid_depth_drops_detection (depth : DepthFun) (d : Detection)
    (dets : List Detection) :
    (depth (center d.box).1 (center d.box).2 ≤ 0 → fuseBox depth d = none) ∧
    (0 < depth (center d.box).1 (center d.box).2 →
      fuseBox depth d =
        some ⟨d, center d.box, depth (center d.box).1 (center d.box).2⟩) ∧
    ∀ f ∈ fuse depth dets, 0 < f.distance := by
  refine ⟨?_, ?_, ?_⟩
  · intro h
    unfold fuseBox
    rw [if_neg (not_lt.mpr h)]
  · intro h
    unfold fuseBox
    rw [if_pos h]
  · intro f hf
    rcases List.mem_filterMap.mp hf with ⟨d0, _, hd0⟩
    unfold fuseBox at hd0
    split at hd0
    · cases hd0
      assumption
    · cases hd0

/-- Witness for the amended C2 at concrete inputs: the zero depth frame at
the sample detection. -/
theorem C2_invalid_depth_drops_detection_witness :
    fuseBox zeroDepth exDet = none :=
  (C2_invalid_depth_drops_detection zeroDepth exDet []).1 (by decide)

/-- Claim C3, counterexample: when pipeline.start succeeds but a warm-up
frame raises, start catches the exception and returns False, and main
returns at once without any stop call, so this exit path leaves the device
handle open and released zero times. -/
theorem C3_counterexample :
    (main true .warmupFail []).1 = MainOutcome.startFail ∧
    (main true .warmupFail []).2.1.opened = true ∧
    (main true .warmupFail []).2.1.stopCalls = 0 := by
  refine ⟨rfl, rfl, rfl⟩

/-- Claim C3, amended: on every exit of the Running loop itself — the q
key breaking out or an exception propagating out of the loop body — the
finally clause releases the device handle exactly once; but on the exit
path where start fails during warm-up after the device was opened, main
returns with the handle still open and no stop call at all. -/
theorem C3_stop_on_loop_exit_only (cycles : List CycleInput)
    (h : (runLoop cycles []).1 = RunOutcome.quit ∨
         (runLoop cycles []).1 = RunOutcome.crashed) :
    ((main true .ok cycles).2.1.stopCalls = 1 ∧
      (main true .ok cycles).2.1.opened = false) ∧
    ((main true .warmupFail cycles).2.1.stopCalls = 0 ∧
      (main true .warmupFail cycles).2.1.opened = true) := by
  refine ⟨?_, rfl, rfl⟩
  unfold main
  rcases hr : runLoop cycles [] with ⟨o, em⟩
  rw [hr] at h
  cases o with
  | stillRunning => simp at h
  | quit => exact ⟨rfl, rfl⟩
  | crashed => exact ⟨rfl, rfl⟩

/-- Witness for the amended C3 at a concrete input: a single cycle during
which the q key is pressed. -/
theorem C3_stop_on_loop_exit_only_witness :
    (((main true .ok [quitCycle]).2.1.stopCalls = 1 ∧
      (main true .ok [quitCycle]).2.1.opened = false) ∧
    ((main true .warmupFail [quitCycle]).2.1.stopCalls = 0 ∧
      (main true .warmupFail [quitCycle]).2.1.opened = true)) :=
  C3_stop_on_loop_exit_only [quitCycle] (Or.inl rfl)

/-- Claim C4, counterexample: stop is not idempotent. The first stop on a
started camera releases the handle, but a second stop raises RuntimeError
because the wrapper calls pipeline.stop with no guard; likewise stop after
a start whose device open failed raises RuntimeError. -/
theorem C4_counterexample :
    camStop ⟨true, 0⟩ = Except.ok ⟨false, 1⟩ ∧
    camStop ⟨false, 1⟩ = Except.error PyExn.runtimeError ∧
    (camStart .openFail initCam).1 = false ∧
    camStop (camStart .openFail initCam).2 = Except.error PyExn.runtimeError := by
  refine ⟨rfl, rfl, rfl, rfl⟩

/-- Claim C4, amended: stop on a started camera releases the handle
exactly once, and because the wrapper forwards straight to pipeline.stop
with no guard, calling it again — or calling it when the camera was never
started — raises RuntimeError instead of double-freeing the handle. -/
theorem C4_stop_not_idempotent (s : CamState) :
    (s.opened = true →
      camStop s = Except.ok ⟨false, s.stopCalls + 1⟩ ∧
      camStop ⟨false, s.stopCalls + 1⟩ = Except.error PyExn.runtimeError) ∧
    (s.opened = false → camStop s = Except.error PyExn.runtimeError) := by
  rcases s with ⟨o, n⟩
  cases o
  · exact ⟨fun h => Bool.noConfusion h, fun _ => rfl⟩
  · exact ⟨fun _ => ⟨rfl, rfl⟩, fun h => Bool.noConfusion h⟩

/-- Witness for the amended C4 at a concrete input: a started camera with
no previous stop calls. -/
theorem C4_stop_not_idempotent_witness :
    camStop ⟨true, 0⟩ = Except.ok ⟨false, 1⟩ ∧
    camStop ⟨false, 1⟩ = Except.error PyExn.runtimeError :=
  (C4_stop_not_idempotent ⟨true, 0⟩).1 rfl

/-- A cycle whose wait_for_frames call raises, as a timeout does. -/
def timeoutCycle : CycleInput := ⟨.raise .frameError, .dets [], .other⟩

/-- Claim C5: when frame acquisition fails — the wrapper returned None for
the color image, which covers both a raised timeout and an incomplete
frame pair — the cycle is skipped with continue: nothing is detected,
fused or emitted for it, and the run proceeds exactly as the run on the
remaining cycles, so an acquisition failure never terminates the run. -/
theorem C5_acquisition_failure_skips_cycle (c : CycleInput)
    (rest : List CycleInput) (acc : List (List FusedDetection))
    (h : (get_aligned_frames c.frameEv).1 = none) :
    runLoop (c :: rest) acc = runLoop rest acc := by
  rcases hg : get_aligned_frames c.frameEv with ⟨a, b⟩
  rw [hg] at h
  simp only at h
  subst h
  conv_lhs => rw [runLoop]
  rw [hg]

/-- Witness for C5 at a concrete input: a timeout cycle followed by a
normal cycle behaves like the normal cycle alone. -/
theorem C5_witness :
    runLoop [timeoutCycle, goodCycle] [] = runLoop [goodCycle] [] :=
  C5_acquisition_failure_skips_cycle timeoutCycle [goodCycle] [] rfl

/-- Claim C6: when cam.start returns False — the device could not be
opened, or warm-up failed — main returns immediately with the start
failure reported: the Running loop is never entered and no cycle output is
ever emitted. -/
theorem C6_failed_start_never_enters_loop (ev : StartEvent)
    (cycles : List CycleInput)
    (h : (camStart ev initCam).1 = false) :
    main true ev cycles = (MainOutcome.startFail, (camStart ev initCam).2, []) := by
  cases ev
  · rfl
  · rfl
  · exact absurd h (by simp [camStart, initCam])

/-- Witness for C6 at a concrete input: a failed device open with a
pending normal cycle. -/
theorem C6_failed_start_never_enters_loop_witness :
    main true .openFail [goodCycle]
      = (MainOutcome.startFail, (camStart .openFail initCam).2, []) :=
  C6_failed_start_never_enters_loop .openFail [goodCycle] rfl

/-- Claim C7: for boxes with nonnegative coordinate sums — which the
detection invariant 0 ≤ x1 and 0 ≤ y1 guarantees — the computed center is
the floor of (x1 + x2) / 2 and (y1 + y2) / 2, since the truncation of
int() agrees with floor on nonnegative arguments; and the computation is a
pure function of the box, hence deterministic across repeated calls. -/
theorem C7_center_is_floor_and_deterministic (b : Box)
    (hx : 0 ≤ b.x1 + b.x2) (hy : 0 ≤ b.y1 + b.y2) :
    center b = (Int.fdiv (b.x1 + b.x2) 2, Int.fdiv (b.y1 + b.y2) 2) ∧
    ∀ b2 : Box, b2 = b → center b2 = center b := by
  constructor
  · unfold center
    rw [Int.fdiv_eq_tdiv hx (by norm_num), Int.fdiv_eq_tdiv hy (by norm_num)]
  · intro b2 h2
    rw [h2]

/-- Witness for C7 at a concrete input: the box (100, 100, 200, 200). -/
theorem C7_center_is_floor_and_deterministic_witness :
    center ⟨100, 100, 200, 200⟩
      = (Int.fdiv (100 + 200) 2, Int.fdiv (100 + 200) 2) ∧
    ∀ b2 : Box, b2 = ⟨100, 100, 200, 200⟩ →
      center b2 = center ⟨100, 100, 200, 200⟩ :=
  C7_center_is_floor_and_deterministic ⟨100, 100, 200, 200⟩ (by decide) (by decide)

/-- Claim C9: get_aligned_frames is total at its interface — the except
clause converts every exception in its body into a return value — and its
result is always either a pair with both the color image and the depth
frame present, or the pair (None, None); a mixed pair is impossible. -/
theorem C9_frames_pair_both_or_neither (ev : FrameEvent) :
    (∃ img dep, get_aligned_frames ev = (some img, some dep)) ∨
    get_aligned_frames ev = (none, none) := by
  cases ev with
  | raise e => exact Or.inr rfl
  | frames depthOk colorOk img dep =>
    cases depthOk
    · exact Or.inr rfl
    · cases colorOk
      · exact Or.inr rfl
      · exact Or.inl ⟨img, dep, rfl⟩

/-- Claim C10: under the detection box invariant 0 ≤ x1 < x2 ≤ width and
0 ≤ y1 < y2 ≤ height, the computed center lies strictly inside the frame,
so the depth sample at the center is always taken at in-bounds pixel
coordinates. -/
theorem C10_center_in_bounds (b : Box) (w h : Int)
    (hx1 : 0 ≤ b.x1) (hx12 : b.x1 < b.x2) (hx2 : b.x2 ≤ w)
    (hy1 : 0 ≤ b.y1) (hy12 : b.y1 < b.y2) (hy2 : b.y2 ≤ h) :
    0 ≤ (center b).1 ∧ (center b).1 < w ∧
    0 ≤ (center b).2 ∧ (center b).2 < h := by
  have hx : (0 : Int) ≤ b.x1 + b.x2 := by omega
  have hy : (0 : Int) ≤ b.y1 + b.y2 := by omega
  have e1 : (center b).1 = (b.x1 + b.x2) / 2 := by
    simp [center]
    exact Int.tdiv_eq_ediv hx (by norm_num)
  have e2 : (center b).2 = (b.y1 + b.y2) / 2 := by
    simp [center]
    exact Int.tdiv_eq_ediv hy (by norm_num)
  rw [e1, e2]
  omega

/-- Witness for C10 at a concrete input: the box (100, 100, 200, 200)
inside a 640 by 480 frame. -/
theorem C10_center_in_bounds_witness :
    0 ≤ (center ⟨100, 100, 200, 200⟩).1 ∧ (center ⟨100, 100, 200, 200⟩).1 < 640 ∧
    0 ≤ (center ⟨100, 100, 200, 200⟩).2 ∧ (center ⟨100, 100, 200, 200⟩).2 < 480 :=
  C10_center_in_bounds ⟨100, 100, 200, 200⟩ 640 480 (by decide) (by decide)
    (by decide) (by decide) (by decide) (by decide)

end FusionDepth
